import Mathlib

/-!
Verification development for the EduQuest Signal Scout evaluation pipeline
(`src/graphs/state.py`, `src/graphs/nodes.py`, `src/graphs/evaluator_graph.py`).

The pipeline takes one text chunk through classify → validate_evidence →
[decision_router] → score → [final_decision_router] → normalize / drop /
error_handler.  Each node returns a partial state update that LangGraph
merges into the accumulating `EvaluatorState`; merging overwrites exactly
the keys present in the update.

Modelling conventions:
  * Python `float` confidence values are modelled as `ℚ`; Python `int`
    scores as `ℤ`.  The comparisons the routers make are the same.
  * The two external LLM calls are opaque inputs: each run of the pipeline
    is parametrised by the classify response and the score response, either
    an `Except.error` (the call itself failed: timeout, malformed JSON,
    transport error) or a parsed object whose fields may individually be
    absent; numeric fields may additionally hold a non-numeric payload on
    which Python `float()` / `int()` raises.
  * A node's `try/except` that converts every exception into an error
    string appended to `errors` is modelled by the node being a total
    function returning an error update; the exact Python exception texts
    are abbreviated, which no theorem depends on.
  * `normalize_node` accesses `state["classification"]` / `state["scoring"]`
    unconditionally (a `KeyError` escapes it if absent), so its model
    returns `Option`; the graph run is `none` exactly when that unhandled
    exception would propagate — and we prove it never does.
  * `datetime.now().isoformat()` is an input parameter `now`.
-/

/-- `ChunkData` from `src/graphs/state.py`: one text chunk of a board
meeting document. -/
structure ChunkData where
  artifact_id : String
  chunk_id : String
  district : String
  meeting_date : Option String
  source_url : String
  board_page_url : String
  text : String
deriving Repr, DecidableEq

/-- `ClassificationResult` from `src/graphs/state.py`.  At runtime the
category is a plain string (the `Literal` type is not enforced). -/
structure ClassificationResult where
  category : String
  confidence : ℚ
  evidence_snippet : String
  rationale : String
deriving Repr, DecidableEq

/-- `ScoreBreakdown` from `src/graphs/state.py`. -/
structure ScoreBreakdown where
  intent_strength : ℤ
  time_window : ℤ
  eduquest_fit : ℤ
  evidence_quality : ℤ
deriving Repr, DecidableEq

/-- `ScoringResult` from `src/graphs/state.py`. -/
structure ScoringResult where
  opportunity_score : ℤ
  score_breakdown : ScoreBreakdown
  summary : String
  recommended_next_step : String
deriving Repr, DecidableEq

/-- `SignalRecord` from `src/graphs/state.py`: the final normalized
record built by `normalize_node`. -/
structure SignalRecord where
  chunk_id : String
  artifact_id : String
  district : String
  meeting_date : Option String
  source_url : String
  board_page_url : String
  category : String
  confidence : ℚ
  opportunity_score : ℤ
  evidence_snippet : String
  summary : String
  recommended_next_step : String
  rationale : String
  generated_at : String
deriving Repr, DecidableEq

/-- `EvaluatorState` from `src/graphs/state.py`.  `classification`,
`scoring` and `signal_record` are `NotRequired` keys, modelled as
`Option`; `errors` and `keep` are initialised by `evaluate_chunk`. -/
structure EvaluatorState where
  chunk : ChunkData
  classification : Option ClassificationResult := none
  scoring : Option ScoringResult := none
  errors : List String := []
  keep : Bool := false
  signal_record : Option SignalRecord := none
deriving Repr, DecidableEq

/-- A partial state update as returned by a LangGraph node: only the keys
present (`some`) are merged into the state, overwriting them. -/
structure StateUpdate where
  classification : Option ClassificationResult := none
  scoring : Option ScoringResult := none
  errors : Option (List String) := none
  keep : Option Bool := none
  signal_record : Option SignalRecord := none
deriving Repr, DecidableEq

/-- LangGraph's merge of a partial update into the state: a key present in
the update replaces the state's value, every other key is unchanged.
`chunk` is never written by any node. -/
def applyUpdate (st : EvaluatorState) (u : StateUpdate) : EvaluatorState :=
  { chunk := st.chunk
    classification := u.classification <|> st.classification
    scoring := u.scoring <|> st.scoring
    errors := u.errors.getD st.errors
    keep := u.keep.getD st.keep
    signal_record := u.signal_record <|> st.signal_record }

/-- Does the character list `pat` occur at the head of `l`? -/
def leadMatch : List Char → List Char → Bool
  | [], _ => true
  | _ :: _, [] => false
  | a :: as, b :: bs => a == b && leadMatch as bs

/-- Does the character list `pat` occur contiguously anywhere in `l`?
(Python's `pat in l` substring test on the underlying characters.) -/
def occursIn (pat : List Char) : List Char → Bool
  | [] => leadMatch pat []
  | c :: rest => leadMatch pat (c :: rest) || occursIn pat rest

/-- Python's `needle in hay` exact, case-sensitive substring test. -/
def substrB (needle hay : String) : Bool :=
  occursIn needle.data hay.data

/-- `settings.confidence_threshold` default from `src/src/config.py`
(`confidence_threshold: float = 0.7`), bound to `CONFIDENCE_THRESHOLD`
in `src/graphs/nodes.py`.  Written as a literal numerator/denominator
pair so the kernel can evaluate comparisons; `CONFIDENCE_THRESHOLD_eq`
below checks it is the rational 7/10 = 0.7. -/
def CONFIDENCE_THRESHOLD : ℚ := ⟨7, 10, by decide, by decide⟩

/-- `settings.score_threshold` default from `src/src/config.py`
(`score_threshold: int = 50`), bound to `SCORE_THRESHOLD` in
`src/graphs/nodes.py`. -/
def SCORE_THRESHOLD : ℤ := 50

/-- A numeric field of a parsed LLM response: absent, present but not
convertible by Python `float()` / `int()`, or a usable value. -/
inductive NumField (α : Type) where
  | missing : NumField α
  | nonNumeric : String → NumField α
  | val : α → NumField α
deriving Repr, DecidableEq

/-- `NumField.missing` test. -/
def NumField.isMissing : NumField α → Bool
  | .missing => true
  | _ => false

/-- The parsed JSON object a classify call returns: each expected key may
be absent. -/
structure ClassifyResponse where
  category : Option String
  confidence : NumField ℚ
  evidence_snippet : Option String
  rationale : Option String
deriving Repr, DecidableEq

/-- The `score_breakdown` sub-object of a score response: each of the four
sub-keys may be absent. -/
structure BreakdownResponse where
  intent_strength : NumField ℤ
  time_window : NumField ℤ
  eduquest_fit : NumField ℤ
  evidence_quality : NumField ℤ
deriving Repr, DecidableEq

/-- The parsed JSON object a score call returns. -/
structure ScoreResponse where
  opportunity_score : NumField ℤ
  score_breakdown : Option BreakdownResponse
  summary : Option String
  recommended_next_step : Option String
deriving Repr, DecidableEq

/-- `result.get("score_breakdown", {}).get(key, 0)` followed by `int(...)`:
an absent object or absent sub-key defaults to `0`; a present non-numeric
sub-value makes `int()` raise. -/
def subIntField (ob : Option BreakdownResponse) (f : BreakdownResponse → NumField ℤ) :
    Except String ℤ :=
  match ob with
  | none => .ok 0
  | some b =>
    match f b with
    | .missing => .ok 0
    | .nonNumeric s => .error ("invalid literal for int: " ++ s)
    | .val n => .ok n

/-- `int(result[key])`: `KeyError` when absent, `ValueError` when not
numeric. -/
def topIntField (nf : NumField ℤ) (key : String) : Except String ℤ :=
  match nf with
  | .missing => .error ("KeyError: " ++ key)
  | .nonNumeric s => .error ("invalid literal for int: " ++ s)
  | .val n => .ok n

/-- `result[key]` for a string field: `KeyError` when absent. -/
def reqStrField (o : Option String) (key : String) : Except String String :=
  match o with
  | none => .error ("KeyError: " ++ key)
  | some s => .ok s

/-- The body of `classify_node`'s `try` block from `src/graphs/nodes.py`:
propagate a failed call, check the four required fields in order, convert
`confidence` with `float()`, and build the `ClassificationResult`. -/
def classifyTry (resp : Except String ClassifyResponse) :
    Except String ClassificationResult :=
  match resp with
  | .error e => .error e
  | .ok r =>
    match r.category, r.confidence, r.evidence_snippet, r.rationale with
    | none, _, _, _ => .error "Missing required field in classification: category"
    | some _, .missing, _, _ => .error "Missing required field in classification: confidence"
    | some _, _, none, _ => .error "Missing required field in classification: evidence_snippet"
    | some _, _, some _, none => .error "Missing required field in classification: rationale"
    | some cat, .val conf, some ev, some ra =>
      .ok { category := cat, confidence := conf, evidence_snippet := ev, rationale := ra }
    | some _, .nonNumeric s, some _, some _ =>
      .error ("could not convert to float: " ++ s)

/-- `classify_node` from `src/graphs/nodes.py`: on success a partial update
with the classification; any exception is caught and appended to `errors`
as `"classify_node: ..."`. -/
def classify_node (st : EvaluatorState) (resp : Except String ClassifyResponse) :
    StateUpdate :=
  match classifyTry resp with
  | .ok c => { classification := some c }
  | .error e => { errors := some (st.errors ++ ["classify_node: " ++ e]) }

/-- `evidence_validation_node` from `src/graphs/nodes.py`: requires a
classification, then checks `snippet in chunk_text`; on either failure it
returns an update appending an error and setting `keep := false`; on
success it returns the empty update `{}`. -/
def evidence_validation_node (st : EvaluatorState) : StateUpdate :=
  match st.classification with
  | none =>
    { errors := some (st.errors ++ ["No classification to validate"])
      keep := some false }
  | some c =>
    if substrB c.evidence_snippet st.chunk.text = false then
      { errors := some (st.errors ++ ["Evidence snippet not found verbatim in chunk text"])
        keep := some false }
    else
      {}

/-- The body of `score_node`'s `try` block from `src/graphs/nodes.py`,
after the call returned: build the breakdown (absent sub-fields default to
0), then `opportunity_score`, `summary`, `recommended_next_step`. -/
def scoreTry (resp : Except String ScoreResponse) : Except String ScoringResult :=
  match resp with
  | .error e => .error e
  | .ok r =>
    match subIntField r.score_breakdown (fun b => b.intent_strength) with
    | .error e => .error e
    | .ok a =>
      match subIntField r.score_breakdown (fun b => b.time_window) with
      | .error e => .error e
      | .ok b =>
        match subIntField r.score_breakdown (fun b => b.eduquest_fit) with
        | .error e => .error e
        | .ok c =>
          match subIntField r.score_breakdown (fun b => b.evidence_quality) with
          | .error e => .error e
          | .ok d =>
            match topIntField r.opportunity_score "opportunity_score" with
            | .error e => .error e
            | .ok n =>
              match reqStrField r.summary "summary" with
              | .error e => .error e
              | .ok su =>
                match reqStrField r.recommended_next_step "recommended_next_step" with
                | .error e => .error e
                | .ok ns =>
                  .ok { opportunity_score := n
                        score_breakdown :=
                          { intent_strength := a, time_window := b
                            eduquest_fit := c, evidence_quality := d }
                        summary := su
                        recommended_next_step := ns }

/-- `score_node` from `src/graphs/nodes.py`: `state["classification"]` is
read inside the `try` (a missing key is caught as an error like any other
exception); on success a partial update with the scoring; any exception is
caught and appended to `errors` as `"score_node: ..."`. -/
def score_node (st : EvaluatorState) (resp : Except String ScoreResponse) :
    StateUpdate :=
  match st.classification with
  | none => { errors := some (st.errors ++ ["score_node: KeyError: classification"]) }
  | some _ =>
    match scoreTry resp with
    | .ok sc => { scoring := some sc }
    | .error e => { errors := some (st.errors ++ ["score_node: " ++ e]) }

/-- The `SignalRecord` that `normalize_node` builds by field projection. -/
def mkRecord (chunk : ChunkData) (c : ClassificationResult) (sc : ScoringResult)
    (now : String) : SignalRecord :=
  { chunk_id := chunk.chunk_id
    artifact_id := chunk.artifact_id
    district := chunk.district
    meeting_date := chunk.meeting_date
    source_url := chunk.source_url
    board_page_url := chunk.board_page_url
    category := c.category
    confidence := c.confidence
    opportunity_score := sc.opportunity_score
    evidence_snippet := c.evidence_snippet
    summary := sc.summary
    recommended_next_step := sc.recommended_next_step
    rationale := c.rationale
    generated_at := now }

/-- `normalize_node` from `src/graphs/nodes.py`: reads
`state["classification"]` and `state["scoring"]` unconditionally (the node
has no `try`, so a missing key would raise out of the node — `none` here),
builds the record, and returns the update setting `keep := true`. -/
def normalize_node (st : EvaluatorState) (now : String) : Option StateUpdate := do
  let c ← st.classification
  let sc ← st.scoring
  pure { signal_record := some (mkRecord st.chunk c sc now), keep := some true }

/-- `drop_node` from `src/graphs/nodes.py`. -/
def drop_node (_st : EvaluatorState) : StateUpdate :=
  { keep := some false }

/-- `error_handler_node` from `src/graphs/nodes.py`. -/
def error_handler_node (_st : EvaluatorState) : StateUpdate :=
  { keep := some false }

/-- `decision_router` from `src/graphs/nodes.py`: errors, then missing
classification, then `category == "none"`, then
`confidence < CONFIDENCE_THRESHOLD`, else score. -/
def decision_router (st : EvaluatorState) : String :=
  if st.errors ≠ [] then "error_handler"
  else
    match st.classification with
    | none => "error_handler"
    | some c =>
      if c.category = "none" then "drop"
      else if c.confidence < CONFIDENCE_THRESHOLD then "drop"
      else "score"

/-- `final_decision_router` from `src/graphs/nodes.py`: errors, then
missing scoring, then `opportunity_score >= SCORE_THRESHOLD` or
`recommended_next_step == "reach_out_now"` normalizes, else drop. -/
def final_decision_router (st : EvaluatorState) : String :=
  if st.errors ≠ [] then "error_handler"
  else
    match st.scoring with
    | none => "error_handler"
    | some sc =>
      if sc.opportunity_score ≥ SCORE_THRESHOLD ∨ sc.recommended_next_step = "reach_out_now"
      then "normalize"
      else "drop"

/-- The initial state `evaluate_chunk` builds in
`src/graphs/evaluator_graph.py`. -/
def initState (chunk : ChunkData) : EvaluatorState :=
  { chunk := chunk, errors := [], keep := false }

/-- One unit's traversal of the compiled graph from
`src/graphs/evaluator_graph.py` (`build_evaluator_graph` /
`evaluate_chunk`), parametrised by the two LLM responses and the
timestamp.  Also returns the trace of node names executed, in order.
The result is `none` exactly when an exception would escape the graph
(only `normalize_node` can raise).  The wildcard arm of each match is
taken only for `"error_handler"`: the routers return no other string,
as proved below. -/
def runEvaluator (chunk : ChunkData) (cresp : Except String ClassifyResponse)
    (sresp : Except String ScoreResponse) (now : String) :
    Option (EvaluatorState × List String) :=
  let s0 := initState chunk
  let s1 := applyUpdate s0 (classify_node s0 cresp)
  let s2 := applyUpdate s1 (evidence_validation_node s1)
  match decision_router s2 with
  | "score" =>
    let s3 := applyUpdate s2 (score_node s2 sresp)
    match final_decision_router s3 with
    | "normalize" =>
      match normalize_node s3 now with
      | some u =>
        some (applyUpdate s3 u, ["classify", "validate_evidence", "score", "normalize"])
      | none => none
    | "drop" =>
      some (applyUpdate s3 (drop_node s3), ["classify", "validate_evidence", "score", "drop"])
    | _ =>
      some (applyUpdate s3 (error_handler_node s3),
        ["classify", "validate_evidence", "score", "error_handler"])
  | "drop" =>
    some (applyUpdate s2 (drop_node s2), ["classify", "validate_evidence", "drop"])
  | _ =>
    some (applyUpdate s2 (error_handler_node s2),
      ["classify", "validate_evidence", "error_handler"])

/-- `evaluate_chunk` from `src/graphs/evaluator_graph.py`: the final state
of one unit's traversal. -/
def evaluate_chunk (chunk : ChunkData) (cresp : Except String ClassifyResponse)
    (sresp : Except String ScoreResponse) (now : String) : Option EvaluatorState :=
  (runEvaluator chunk cresp sresp now).map Prod.fst

/-- A classify response on which `classify_node` records an error: the
external call failed, or a required field is absent from the object. -/
def classifyRespBad (resp : Except String ClassifyResponse) : Prop :=
  (∃ e, resp = .error e) ∨
    (∃ r, resp = .ok r ∧
      (r.category = none ∨ r.confidence = .missing ∨
        r.evidence_snippet = none ∨ r.rationale = none))

/-- A score response on which `score_node` records an error: the external
call failed, or `opportunity_score` is absent or non-numeric, or `summary`
or `recommended_next_step` is absent. -/
def scoreRespBad (resp : Except String ScoreResponse) : Prop :=
  (∃ e, resp = .error e) ∨
    (∃ r, resp = .ok r ∧
      (r.opportunity_score = .missing ∨
        (∃ s, r.opportunity_score = .nonNumeric s) ∨
        r.summary = none ∨ r.recommended_next_step = none))

/-- The integer a breakdown sub-field contributes: absent defaults to 0. -/
def subDefault : NumField ℤ → ℤ
  | .missing => 0
  | .nonNumeric _ => 0
  | .val n => n

/-- The `ScoreBreakdown` built from an optional breakdown object with
every absent sub-field defaulted to 0. -/
def breakdownDefaults : Option BreakdownResponse → ScoreBreakdown
  | none => ⟨0, 0, 0, 0⟩
  | some b =>
    ⟨subDefault b.intent_strength, subDefault b.time_window,
      subDefault b.eduquest_fit, subDefault b.evidence_quality⟩

/-- Is this numeric field present but non-numeric (so `int()` raises)? -/
def isNonNumB : NumField ℤ → Bool
  | .nonNumeric _ => true
  | _ => false

/-- No sub-field of the breakdown object is present-but-non-numeric. -/
def noBadSub : Option BreakdownResponse → Bool
  | none => true
  | some b =>
    !(isNonNumB b.intent_strength || isNonNumB b.time_window ||
      isNonNumB b.eduquest_fit || isNonNumB b.evidence_quality)

/-! ### Concrete example inputs (used by the witness theorems) -/

/-- A concrete chunk (the spec's running example text). -/
def exChunk : ChunkData :=
  { artifact_id := "art-1", chunk_id := "chunk-1", district := "Alpine"
    meeting_date := some "2026-01-10", source_url := "http://src"
    board_page_url := "http://board"
    text := "Board will evaluate a new literacy curriculum pilot in Q1 2026" }

/-- A classification whose confidence sits exactly at the default
threshold 0.7 and whose snippet occurs verbatim in `exChunk.text`. -/
def exClassification : ClassificationResult :=
  { category := "pilot_evaluation", confidence := CONFIDENCE_THRESHOLD
    evidence_snippet := "evaluate a new literacy curriculum pilot"
    rationale := "explicit pilot evaluation" }

/-- The classify response producing `exClassification`. -/
def exClassifyResp : Except String ClassifyResponse :=
  .ok { category := some "pilot_evaluation", confidence := .val CONFIDENCE_THRESHOLD
        evidence_snippet := some "evaluate a new literacy curriculum pilot"
        rationale := some "explicit pilot evaluation" }

/-- A classify response missing its `confidence` field. -/
def exBadClassifyResp : Except String ClassifyResponse :=
  .ok { category := some "budget_allocation", confidence := .missing
        evidence_snippet := some "ev", rationale := some "ra" }

/-- A scoring result whose score sits exactly at the default threshold 50. -/
def exScoring : ScoringResult :=
  { opportunity_score := 50
    score_breakdown := ⟨10, 15, 12, 13⟩
    summary := "pilot evaluation opportunity"
    recommended_next_step := "research_more" }

/-- The score response producing `exScoring`. -/
def exScoreResp : Except String ScoreResponse :=
  .ok { opportunity_score := .val 50
        score_breakdown := some ⟨.val 10, .val 15, .val 12, .val 13⟩
        summary := some "pilot evaluation opportunity"
        recommended_next_step := some "research_more" }

/-- A score response with a low score, the `"reach_out_now"` override and
no breakdown object at all (every sub-field defaults to 0). -/
def exOverrideScoreResp : Except String ScoreResponse :=
  .ok { opportunity_score := .val 10, score_breakdown := none
        summary := some "low score but urgent"
        recommended_next_step := some "reach_out_now" }

/-- The scoring result `exOverrideScoreResp` parses to. -/
def exOverrideScoring : ScoringResult :=
  { opportunity_score := 10, score_breakdown := ⟨0, 0, 0, 0⟩
    summary := "low score but urgent", recommended_next_step := "reach_out_now" }

/-- A state as seen by the post-validation router after a successful
classification at the confidence boundary. -/
def exStateValidated : EvaluatorState :=
  { chunk := exChunk, classification := some exClassification }

/-- A state as seen by the final router after scoring at the score
boundary. -/
def exStateScored : EvaluatorState :=
  { chunk := exChunk, classification := some exClassification
    scoring := some exScoring }

/-- A state as seen by the final router with a low score and the
`"reach_out_now"` override. -/
def exStateOverride : EvaluatorState :=
  { chunk := exChunk, classification := some exClassification
    scoring := some exOverrideScoring }

/-- A state reaching evidence validation with no classification. -/
def exStateNoCls : EvaluatorState :=
  { chunk := exChunk }

/-- The terminal state of the fully successful example traversal. -/
def exNormState : EvaluatorState :=
  { chunk := exChunk, classification := some exClassification
    scoring := some exScoring, errors := [], keep := true
    signal_record := some (mkRecord exChunk exClassification exScoring "2026-01-10T00:00:00") }

/-- The terminal state of the traversal whose classify response was
missing `confidence`. -/
def exErrState : EvaluatorState :=
  { chunk := exChunk, classification := none, scoring := none
    errors := ["classify_node: Missing required field in classification: confidence",
      "No classification to validate"]
    keep := false, signal_record := none }

/-! ### Stage-by-stage characterisation of a traversal -/

/-- The configured confidence threshold is the rational 7/10 = 0.7. -/
lemma CONFIDENCE_THRESHOLD_eq : CONFIDENCE_THRESHOLD = 7 / 10 := by
  rw [CONFIDENCE_THRESHOLD, Rat.mk'_eq_divInt, Rat.divInt_eq_div]
  norm_num

/-- The state after `classify` and `validate_evidence` when the classify
call failed or returned an incomplete object: two errors accumulated,
`keep` set to `false`, no classification. -/
lemma run_classify_error (chunk : ChunkData) (cresp : Except String ClassifyResponse)
    (sresp : Except String ScoreResponse) (now : String) (e : String)
    (h : classifyTry cresp = .error e) :
    runEvaluator chunk cresp sresp now =
      some (⟨chunk, none, none,
        ["classify_node: " ++ e, "No classification to validate"], false, none⟩,
        ["classify", "validate_evidence", "error_handler"]) := by
  simp [runEvaluator, initState, classify_node, h, applyUpdate,
    evidence_validation_node, decision_router, error_handler_node]

/-- The state after `validate_evidence` rejects the snippet: one error,
`keep` set to `false`, traversal ends at `error_handler`. -/
lemma run_validation_fail (chunk : ChunkData) (cresp : Except String ClassifyResponse)
    (sresp : Except String ScoreResponse) (now : String) (c : ClassificationResult)
    (h : classifyTry cresp = .ok c)
    (hs : substrB c.evidence_snippet chunk.text = false) :
    runEvaluator chunk cresp sresp now =
      some (⟨chunk, some c, none,
        ["Evidence snippet not found verbatim in chunk text"], false, none⟩,
        ["classify", "validate_evidence", "error_handler"]) := by
  simp [runEvaluator, initState, classify_node, h, applyUpdate,
    evidence_validation_node, hs, decision_router, error_handler_node]

/-- Dropped at the post-validation router because `category == "none"`. -/
lemma run_drop_category (chunk : ChunkData) (cresp : Except String ClassifyResponse)
    (sresp : Except String ScoreResponse) (now : String) (c : ClassificationResult)
    (h : classifyTry cresp = .ok c)
    (hs : substrB c.evidence_snippet chunk.text = true)
    (hcat : c.category = "none") :
    runEvaluator chunk cresp sresp now =
      some (⟨chunk, some c, none, [], false, none⟩,
        ["classify", "validate_evidence", "drop"]) := by
  simp [runEvaluator, initState, classify_node, h, applyUpdate,
    evidence_validation_node, hs, decision_router, hcat, drop_node]

/-- Dropped at the post-validation router on low confidence. -/
lemma run_drop_confidence (chunk : ChunkData) (cresp : Except String ClassifyResponse)
    (sresp : Except String ScoreResponse) (now : String) (c : ClassificationResult)
    (h : classifyTry cresp = .ok c)
    (hs : substrB c.evidence_snippet chunk.text = true)
    (hcat : c.category ≠ "none")
    (hconf : c.confidence < CONFIDENCE_THRESHOLD) :
    runEvaluator chunk cresp sresp now =
      some (⟨chunk, some c, none, [], false, none⟩,
        ["classify", "validate_evidence", "drop"]) := by
  simp [runEvaluator, initState, classify_node, h, applyUpdate,
    evidence_validation_node, hs, decision_router, hcat, hconf, drop_node]

/-- The score call failed or returned an incomplete object: one error,
traversal ends at `error_handler`. -/
lemma run_score_error (chunk : ChunkData) (cresp : Except String ClassifyResponse)
    (sresp : Except String ScoreResponse) (now : String) (c : ClassificationResult)
    (e : String)
    (h : classifyTry cresp = .ok c)
    (hs : substrB c.evidence_snippet chunk.text = true)
    (hcat : c.category ≠ "none")
    (hconf : ¬ c.confidence < CONFIDENCE_THRESHOLD)
    (hsc : scoreTry sresp = .error e) :
    runEvaluator chunk cresp sresp now =
      some (⟨chunk, some c, none, ["score_node: " ++ e], false, none⟩,
        ["classify", "validate_evidence", "score", "error_handler"]) := by
  simp [runEvaluator, initState, classify_node, h, applyUpdate,
    evidence_validation_node, hs, decision_router, hcat, hconf, score_node, hsc,
    final_decision_router, error_handler_node]

/-- Scored below threshold with no override: dropped after `score`. -/
lemma run_score_drop (chunk : ChunkData) (cresp : Except String ClassifyResponse)
    (sresp : Except String ScoreResponse) (now : String) (c : ClassificationResult)
    (sc : ScoringResult)
    (h : classifyTry cresp = .ok c)
    (hs : substrB c.evidence_snippet chunk.text = true)
    (hcat : c.category ≠ "none")
    (hconf : ¬ c.confidence < CONFIDENCE_THRESHOLD)
    (hsc : scoreTry sresp = .ok sc)
    (hlow : ¬ (sc.opportunity_score ≥ SCORE_THRESHOLD ∨
      sc.recommended_next_step = "reach_out_now")) :
    runEvaluator chunk cresp sresp now =
      some (⟨chunk, some c, some sc, [], false, none⟩,
        ["classify", "validate_evidence", "score", "drop"]) := by
  simp only [not_or] at hlow
  simp [runEvaluator, initState, classify_node, h, applyUpdate,
    evidence_validation_node, hs, decision_router, hcat, hconf, score_node, hsc,
    final_decision_router, hlow.1, hlow.2, drop_node]

/-- Scored at or above threshold, or rescued by the `"reach_out_now"`
override: normalized, `keep := true`, record built by field projection. -/
lemma run_normalize (chunk : ChunkData) (cresp : Except String ClassifyResponse)
    (sresp : Except String ScoreResponse) (now : String) (c : ClassificationResult)
    (sc : ScoringResult)
    (h : classifyTry cresp = .ok c)
    (hs : substrB c.evidence_snippet chunk.text = true)
    (hcat : c.category ≠ "none")
    (hconf : ¬ c.confidence < CONFIDENCE_THRESHOLD)
    (hsc : scoreTry sresp = .ok sc)
    (hhi : sc.opportunity_score ≥ SCORE_THRESHOLD ∨
      sc.recommended_next_step = "reach_out_now") :
    runEvaluator chunk cresp sresp now =
      some (⟨chunk, some c, some sc, [], true, some (mkRecord chunk c sc now)⟩,
        ["classify", "validate_evidence", "score", "normalize"]) := by
  simp [runEvaluator, initState, classify_node, h, applyUpdate,
    evidence_validation_node, hs, decision_router, hcat, hconf, score_node, hsc,
    final_decision_router, hhi, normalize_node]

/-- Master characterisation: every traversal terminates with one of five
outcome shapes — errored before scoring, dropped at the first router,
errored at scoring, dropped at the second router, or normalized. -/
lemma run_master (chunk : ChunkData) (cresp : Except String ClassifyResponse)
    (sresp : Except String ScoreResponse) (now : String) :
    ∃ st tr, runEvaluator chunk cresp sresp now = some (st, tr) ∧
      ((∃ ocls msgs, msgs ≠ ([] : List String) ∧
          st = ⟨chunk, ocls, none, msgs, false, none⟩ ∧
          tr = ["classify", "validate_evidence", "error_handler"]) ∨
        (∃ c, st = ⟨chunk, some c, none, [], false, none⟩ ∧
          tr = ["classify", "validate_evidence", "drop"]) ∨
        (∃ c msgs, msgs ≠ ([] : List String) ∧
          st = ⟨chunk, some c, none, msgs, false, none⟩ ∧
          tr = ["classify", "validate_evidence", "score", "error_handler"]) ∨
        (∃ c sc, st = ⟨chunk, some c, some sc, [], false, none⟩ ∧
          tr = ["classify", "validate_evidence", "score", "drop"]) ∨
        (∃ c sc, substrB c.evidence_snippet chunk.text = true ∧
          c.category ≠ "none" ∧
          st = ⟨chunk, some c, some sc, [], true, some (mkRecord chunk c sc now)⟩ ∧
          tr = ["classify", "validate_evidence", "score", "normalize"])) := by
  cases hcl : classifyTry cresp with
  | error e =>
    exact ⟨_, _, run_classify_error chunk cresp sresp now e hcl,
      Or.inl ⟨none, _, by simp, rfl, rfl⟩⟩
  | ok c =>
    rcases Bool.eq_false_or_eq_true (substrB c.evidence_snippet chunk.text) with hs | hs
    case inr =>
      exact ⟨_, _, run_validation_fail chunk cresp sresp now c hcl hs,
        Or.inl ⟨some c, _, by simp, rfl, rfl⟩⟩
    case inl =>
      by_cases hcat : c.category = "none"
      · exact ⟨_, _, run_drop_category chunk cresp sresp now c hcl hs hcat,
          Or.inr (Or.inl ⟨c, rfl, rfl⟩)⟩
      · by_cases hconf : c.confidence < CONFIDENCE_THRESHOLD
        · exact ⟨_, _, run_drop_confidence chunk cresp sresp now c hcl hs hcat hconf,
            Or.inr (Or.inl ⟨c, rfl, rfl⟩)⟩
        · cases hsc : scoreTry sresp with
          | error e =>
            exact ⟨_, _, run_score_error chunk cresp sresp now c e hcl hs hcat hconf hsc,
              Or.inr (Or.inr (Or.inl ⟨c, _, by simp, rfl, rfl⟩))⟩
          | ok sc =>
            by_cases hhi : sc.opportunity_score ≥ SCORE_THRESHOLD ∨
                sc.recommended_next_step = "reach_out_now"
            · exact ⟨_, _, run_normalize chunk cresp sresp now c sc hcl hs hcat hconf hsc hhi,
                Or.inr (Or.inr (Or.inr (Or.inr ⟨c, sc, hs, hcat, rfl, rfl⟩)))⟩
            · exact ⟨_, _, run_score_drop chunk cresp sresp now c sc hcl hs hcat hconf hsc hhi,
                Or.inr (Or.inr (Or.inr (Or.inl ⟨c, sc, rfl, rfl⟩)))⟩

/-! ### Contracts of the two parsing stages -/

/-- A bad classify response (failed call or missing required field) makes
`classifyTry` fail. -/
lemma classifyTry_error_of_bad (resp : Except String ClassifyResponse)
    (h : classifyRespBad resp) : ∃ e, classifyTry resp = .error e := by
  rcases h with ⟨e, rfl⟩ | ⟨r, rfl, hbad⟩
  · exact ⟨e, rfl⟩
  · obtain ⟨cat, conf, ev, ra⟩ := r
    cases cat <;> cases conf <;> cases ev <;> cases ra <;>
      simp_all [classifyTry]

/-- If `classifyTry` succeeds then every required field was present and
the result is the direct projection of the response. -/
lemma classifyTry_ok_shape (r : ClassifyResponse) (c : ClassificationResult)
    (hok : classifyTry (.ok r) = .ok c) :
    r.category = some c.category ∧ r.confidence = .val c.confidence ∧
      r.evidence_snippet = some c.evidence_snippet ∧ r.rationale = some c.rationale := by
  obtain ⟨cat, conf, ev, ra⟩ := r
  cases cat <;> cases conf <;> cases ev <;> cases ra <;> simp_all [classifyTry]
  subst hok
  exact ⟨rfl, rfl, rfl, rfl⟩

/-- A bad score response (failed call, or `opportunity_score` absent or
non-numeric, or `summary` / `recommended_next_step` absent) makes
`scoreTry` fail, whatever the breakdown contains. -/
lemma scoreTry_error_of_bad (resp : Except String ScoreResponse)
    (h : scoreRespBad resp) : ∃ e, scoreTry resp = .error e := by
  rcases h with ⟨e, rfl⟩ | ⟨r, rfl, hbad⟩
  · exact ⟨e, rfl⟩
  · cases h1 : subIntField r.score_breakdown (fun b => b.intent_strength) with
    | error e => exact ⟨e, by simp [scoreTry, h1]⟩
    | ok a =>
      cases h2 : subIntField r.score_breakdown (fun b => b.time_window) with
      | error e => exact ⟨e, by simp [scoreTry, h1, h2]⟩
      | ok b =>
        cases h3 : subIntField r.score_breakdown (fun b => b.eduquest_fit) with
        | error e => exact ⟨e, by simp [scoreTry, h1, h2, h3]⟩
        | ok c =>
          cases h4 : subIntField r.score_breakdown (fun b => b.evidence_quality) with
          | error e => exact ⟨e, by simp [scoreTry, h1, h2, h3, h4]⟩
          | ok d =>
            rcases hbad with hb | ⟨s, hb⟩ | hb | hb
            · exact ⟨"KeyError: opportunity_score",
                by simp [scoreTry, h1, h2, h3, h4, topIntField, hb]⟩
            · exact ⟨"invalid literal for int: " ++ s,
                by simp [scoreTry, h1, h2, h3, h4, topIntField, hb]⟩
            · cases hop : topIntField r.opportunity_score "opportunity_score" with
              | error e => exact ⟨e, by simp [scoreTry, h1, h2, h3, h4, hop]⟩
              | ok n =>
                exact ⟨"KeyError: summary",
                  by simp [scoreTry, h1, h2, h3, h4, hop, reqStrField, hb]⟩
            · cases hop : topIntField r.opportunity_score "opportunity_score" with
              | error e => exact ⟨e, by simp [scoreTry, h1, h2, h3, h4, hop]⟩
              | ok n =>
                cases hsum : r.summary with
                | none =>
                  exact ⟨"KeyError: summary",
                    by simp [scoreTry, h1, h2, h3, h4, hop, reqStrField, hsum]⟩
                | some su =>
                  exact ⟨"KeyError: recommended_next_step",
                    by simp [scoreTry, h1, h2, h3, h4, hop, reqStrField, hsum, hb]⟩

/-- A good score response parses to the projection of its fields with
every absent breakdown sub-field defaulted to 0. -/
lemma scoreTry_ok_of_good (r : ScoreResponse) (n : ℤ) (su ns : String)
    (hn : r.opportunity_score = .val n) (hsu : r.summary = some su)
    (hns : r.recommended_next_step = some ns)
    (hsub : noBadSub r.score_breakdown = true) :
    scoreTry (.ok r) = .ok ⟨n, breakdownDefaults r.score_breakdown, su, ns⟩ := by
  obtain ⟨op, ob, osu, ons⟩ := r
  simp only at hn hsu hns hsub ⊢
  subst hn
  subst hsu
  subst hns
  cases ob with
  | none => simp [scoreTry, subIntField, topIntField, reqStrField, breakdownDefaults]
  | some b =>
    obtain ⟨f1, f2, f3, f4⟩ := b
    cases f1 <;> cases f2 <;> cases f3 <;> cases f4 <;>
      simp_all [scoreTry, subIntField, topIntField, reqStrField,
        breakdownDefaults, subDefault, noBadSub, isNonNumB]

/-! ### Claim theorems -/

/-- Claim C2: the post-validation decision router evaluates, in order:
accumulated errors route to error_handler; then a missing
ClassificationResult routes to error_handler; then `category == "none"`
routes to drop regardless of confidence; then
`confidence < CONFIDENCE_THRESHOLD` (default 0.7) routes to drop;
otherwise it routes to score — so confidence exactly equal to the
threshold proceeds to scoring. -/
theorem C2_decision_router_precedence (s : EvaluatorState) :
    (s.errors ≠ [] → decision_router s = "error_handler") ∧
    (s.errors = [] → s.classification = none → decision_router s = "error_handler") ∧
    (∀ c, s.errors = [] → s.classification = some c → c.category = "none" →
      decision_router s = "drop") ∧
    (∀ c, s.errors = [] → s.classification = some c → c.category ≠ "none" →
      c.confidence < CONFIDENCE_THRESHOLD → decision_router s = "drop") ∧
    (∀ c, s.errors = [] → s.classification = some c → c.category ≠ "none" →
      CONFIDENCE_THRESHOLD ≤ c.confidence → decision_router s = "score") := by
  refine ⟨?_, ?_, ?_, ?_, ?_⟩
  · intro h; simp [decision_router, h]
  · intro h hc; simp [decision_router, h, hc]
  · intro c h hc hcat; simp [decision_router, h, hc, hcat]
  · intro c h hc hcat hconf; simp [decision_router, h, hc, hcat, hconf]
  · intro c h hc hcat hle; simp [decision_router, h, hc, hcat, not_lt.mpr hle]

/-- Witness for C2: a state whose classification has confidence exactly
equal to the 0.7 threshold routes to score, not drop. -/
theorem C2_witness : decision_router exStateValidated = "score" :=
  (C2_decision_router_precedence exStateValidated).2.2.2.2 exClassification rfl rfl
    (by decide) (by norm_num [exClassification, CONFIDENCE_THRESHOLD])

/-- Claim C3: the final decision router, with no errors and a ScoringResult
present, routes to normalize exactly when `opportunity_score` is at least
`SCORE_THRESHOLD` (default 50, inclusive) or `recommended_next_step` is
`"reach_out_now"` (the override), and to drop otherwise; with errors or a
missing ScoringResult it routes to error_handler. -/
theorem C3_final_router_precedence (s : EvaluatorState) :
    (s.errors ≠ [] → final_decision_router s = "error_handler") ∧
    (s.errors = [] → s.scoring = none → final_decision_router s = "error_handler") ∧
    (∀ sc, s.errors = [] → s.scoring = some sc →
      SCORE_THRESHOLD ≤ sc.opportunity_score ∨ sc.recommended_next_step = "reach_out_now" →
      final_decision_router s = "normalize") ∧
    (∀ sc, s.errors = [] → s.scoring = some sc →
      sc.opportunity_score < SCORE_THRESHOLD → sc.recommended_next_step ≠ "reach_out_now" →
      final_decision_router s = "drop") := by
  refine ⟨?_, ?_, ?_, ?_⟩
  · intro h; simp [final_decision_router, h]
  · intro h hc; simp [final_decision_router, h, hc]
  · intro sc h hc hhi
    rcases hhi with hhi | hhi
    · simp [final_decision_router, h, hc, ge_iff_le, hhi]
    · simp [final_decision_router, h, hc, hhi]
  · intro sc h hc hlow hns
    simp [final_decision_router, h, hc, ge_iff_le, not_le.mpr hlow, hns]

/-- Witness for C3: a score exactly equal to the threshold 50 normalizes,
and a score of 10 with the `"reach_out_now"` override also normalizes. -/
theorem C3_witness :
    final_decision_router exStateScored = "normalize" ∧
    final_decision_router exStateOverride = "normalize" :=
  ⟨(C3_final_router_precedence exStateScored).2.2.1 exScoring rfl rfl (Or.inl (by decide)),
   (C3_final_router_precedence exStateOverride).2.2.1 exOverrideScoring rfl rfl (Or.inr rfl)⟩

/-- Counterexample to claim C6 as stated: the claim says the Evidence
Validation stage does not itself write the `keep` field on failure, but at
a concrete state with a missing ClassificationResult the node's update has
the `keep` key present (set to `false`) — `nodes.py` returns
`{"errors": ..., "keep": False}` in both failure branches. -/
theorem C6_counterexample : ¬ ((evidence_validation_node exStateNoCls).keep = none) := by
  decide

/-- Claim C6 amended: when the ClassificationResult is absent or the
exact-substring check fails, the Evidence Validation stage appends an
error message to the error list and also sets `keep` to `false` in the
same update (the subsequent routing step still decides the terminal,
sending such states to error_handler). -/
theorem C6_amended_validation_failure (s : EvaluatorState) :
    (s.classification = none →
      evidence_validation_node s =
        { errors := some (s.errors ++ ["No classification to validate"])
          keep := some false }) ∧
    (∀ c, s.classification = some c →
      substrB c.evidence_snippet s.chunk.text = false →
      evidence_validation_node s =
        { errors := some (s.errors ++ ["Evidence snippet not found verbatim in chunk text"])
          keep := some false }) := by
  constructor
  · intro h; simp [evidence_validation_node, h]
  · intro c hc hs; simp [evidence_validation_node, hc, hs]

/-- Witness for the amended C6: the missing-classification failure at a
concrete state. -/
theorem C6_amended_witness :
    evidence_validation_node exStateNoCls =
      { errors := some ["No classification to validate"], keep := some false } :=
  (C6_amended_validation_failure exStateNoCls).1 rfl

/-- Claim C10: when the evidence substring check succeeds, the Evidence
Validation stage returns the empty partial update, so merging it leaves
every field of the state exactly unchanged. -/
theorem C10_validation_pass_is_noop (s : EvaluatorState) (c : ClassificationResult)
    (hc : s.classification = some c)
    (hs : substrB c.evidence_snippet s.chunk.text = true) :
    evidence_validation_node s = ({} : StateUpdate) ∧
    applyUpdate s (evidence_validation_node s) = s := by
  have h1 : evidence_validation_node s = ({} : StateUpdate) := by
    simp [evidence_validation_node, hc, hs]
  refine ⟨h1, ?_⟩
  rw [h1]
  cases s
  simp [applyUpdate]

/-- Witness for C10: a concrete state whose snippet occurs verbatim. -/
theorem C10_witness :
    evidence_validation_node exStateValidated = ({} : StateUpdate) ∧
    applyUpdate exStateValidated (evidence_validation_node exStateValidated) =
      exStateValidated :=
  C10_validation_pass_is_noop exStateValidated exClassification rfl (by decide)

/-- Claim C1: for every unit whose traversal reaches Normalize, the
`evidence_snippet` stored in the produced SignalRecord is an exact,
case-sensitive, verbatim substring of the unit's raw text — the Evidence
Validation guarantee still holds for the record handed to export. -/
theorem C1_evidence_verbatim_at_export (chunk : ChunkData)
    (cresp : Except String ClassifyResponse) (sresp : Except String ScoreResponse)
    (now : String) (st : EvaluatorState) (r : SignalRecord)
    (hrun : evaluate_chunk chunk cresp sresp now = some st)
    (hrec : st.signal_record = some r) :
    substrB r.evidence_snippet chunk.text = true := by
  obtain ⟨st', tr, hrun', hc⟩ := run_master chunk cresp sresp now
  have hst : st' = st := by
    rw [evaluate_chunk, hrun'] at hrun
    simpa using hrun
  subst hst
  rcases hc with ⟨ocls, msgs, hne, hst, htr⟩ | ⟨c, hst, htr⟩ | ⟨c, msgs, hne, hst, htr⟩ |
    ⟨c, sc, hst, htr⟩ | ⟨c, sc, hsub, hcat, hst, htr⟩
  · subst hst; simp_all
  · subst hst; simp_all
  · subst hst; simp_all
  · subst hst; simp_all
  · subst hst
    obtain rfl : mkRecord chunk c sc now = r := Option.some.inj hrec
    simpa [mkRecord] using hsub

/-- Witness for C1: the fully successful example traversal produces a
record whose snippet is a substring of the chunk text. -/
theorem C1_witness :
    substrB (mkRecord exChunk exClassification exScoring "2026-01-10T00:00:00").evidence_snippet
      exChunk.text = true :=
  C1_evidence_verbatim_at_export exChunk exClassifyResp exScoreResp "2026-01-10T00:00:00"
    exNormState (mkRecord exChunk exClassification exScoring "2026-01-10T00:00:00")
    (by decide) rfl

/-- Claim C4: in every terminal state, `keep = true` holds if and only if
a SignalRecord is present, and `keep = true` additionally implies the
classification's category is not `"none"`. -/
theorem C4_keep_iff_record (chunk : ChunkData)
    (cresp : Except String ClassifyResponse) (sresp : Except String ScoreResponse)
    (now : String) (st : EvaluatorState)
    (hrun : evaluate_chunk chunk cresp sresp now = some st) :
    (st.keep = true ↔ ∃ r, st.signal_record = some r) ∧
    (st.keep = true → ∃ c, st.classification = some c ∧ c.category ≠ "none") := by
  obtain ⟨st', tr, hrun', hc⟩ := run_master chunk cresp sresp now
  have hst : st' = st := by
    rw [evaluate_chunk, hrun'] at hrun
    simpa using hrun
  subst hst
  rcases hc with ⟨ocls, msgs, hne, hst, htr⟩ | ⟨c, hst, htr⟩ | ⟨c, msgs, hne, hst, htr⟩ |
    ⟨c, sc, hst, htr⟩ | ⟨c, sc, hsub, hcat, hst, htr⟩ <;> subst hst <;> simp_all

/-- Witness for C4: the successful example terminal state. -/
theorem C4_witness :
    (exNormState.keep = true ↔ ∃ r, exNormState.signal_record = some r) ∧
    (exNormState.keep = true →
      ∃ c, exNormState.classification = some c ∧ c.category ≠ "none") :=
  C4_keep_iff_record exChunk exClassifyResp exScoreResp "2026-01-10T00:00:00" exNormState
    (by decide)

/-- Claim C5: a non-empty errors list in a terminal state implies the
traversal terminated via the Error path (the last node executed was
error_handler, not normalize), `keep = false`, and no SignalRecord was
produced. -/
theorem C5_errors_imply_error_terminal (chunk : ChunkData)
    (cresp : Except String ClassifyResponse) (sresp : Except String ScoreResponse)
    (now : String) (st : EvaluatorState) (tr : List String)
    (hrun : runEvaluator chunk cresp sresp now = some (st, tr))
    (herr : st.errors ≠ []) :
    tr.getLast? = some "error_handler" ∧ st.keep = false ∧ st.signal_record = none := by
  obtain ⟨st', tr', hrun', hc⟩ := run_master chunk cresp sresp now
  rw [hrun'] at hrun
  simp only [Option.some.injEq, Prod.mk.injEq] at hrun
  obtain ⟨hst, htr⟩ := hrun
  subst hst
  subst htr
  rcases hc with ⟨ocls, msgs, hne, hst, htr⟩ | ⟨c, hst, htr⟩ | ⟨c, msgs, hne, hst, htr⟩ |
    ⟨c, sc, hst, htr⟩ | ⟨c, sc, hsub, hcat, hst, htr⟩ <;> subst hst <;> subst htr <;>
    simp_all

/-- Witness for C5: the traversal whose classify response was missing its
`confidence` field ends at error_handler with no record. -/
theorem C5_witness :
    (["classify", "validate_evidence", "error_handler"] : List String).getLast? =
        some "error_handler" ∧
      exErrState.keep = false ∧ exErrState.signal_record = none :=
  C5_errors_imply_error_terminal exChunk exBadClassifyResp exScoreResp "T" exErrState
    ["classify", "validate_evidence", "error_handler"] (by decide) (by decide)

/-- Claim C9: every traversal terminates (no exception escapes the graph),
executes at most 4 stages, executes no stage twice (so there is no cycle),
and reaches exactly one terminal node, which is the last one executed. -/
theorem C9_termination_bounded (chunk : ChunkData)
    (cresp : Except String ClassifyResponse) (sresp : Except String ScoreResponse)
    (now : String) :
    ∃ st tr, runEvaluator chunk cresp sresp now = some (st, tr) ∧
      tr.length ≤ 4 ∧ tr.Nodup ∧
      (tr.getLast? = some "normalize" ∨ tr.getLast? = some "drop" ∨
        tr.getLast? = some "error_handler") ∧
      tr.countP (fun n => n == "normalize" || n == "drop" || n == "error_handler") = 1 := by
  obtain ⟨st, tr, hrun, hc⟩ := run_master chunk cresp sresp now
  refine ⟨st, tr, hrun, ?_⟩
  rcases hc with ⟨ocls, msgs, hne, hst, htr⟩ | ⟨c, hst, htr⟩ | ⟨c, msgs, hne, hst, htr⟩ |
    ⟨c, sc, hst, htr⟩ | ⟨c, sc, hsub, hcat, hst, htr⟩ <;> subst htr <;> decide

/-- Claim C7: for every classify response missing a required field
(category, confidence, evidence_snippet or rationale) and for every
failing external classify call, the Classify stage records an error string
in the state and never raises to its caller (the node is a total function
into updates); the subsequent traversal ends at the Error terminal, not
Drop.  On success it writes the ClassificationResult into the state. -/
theorem C7_classify_failure_containment (s : EvaluatorState) (chunk : ChunkData)
    (cresp : Except String ClassifyResponse) (sresp : Except String ScoreResponse)
    (now : String) :
    (classifyRespBad cresp →
      ∃ msg, classify_node s cresp = { errors := some (s.errors ++ [msg]) }) ∧
    (∀ r cat q ev ra, cresp = .ok r → r.category = some cat → r.confidence = .val q →
      r.evidence_snippet = some ev → r.rationale = some ra →
      classify_node s cresp =
        { classification := some ⟨cat, q, ev, ra⟩ }) ∧
    (classifyRespBad cresp →
      ∃ st tr, runEvaluator chunk cresp sresp now = some (st, tr) ∧
        tr.getLast? = some "error_handler" ∧ st.errors ≠ [] ∧ st.keep = false ∧
        st.signal_record = none) := by
  refine ⟨?_, ?_, ?_⟩
  · intro hbad
    obtain ⟨e, he⟩ := classifyTry_error_of_bad cresp hbad
    exact ⟨"classify_node: " ++ e, by simp [classify_node, he]⟩
  · intro r cat q ev ra hr hcat hconf hev hra
    subst hr
    simp [classify_node, classifyTry, hcat, hconf, hev, hra]
  · intro hbad
    obtain ⟨e, he⟩ := classifyTry_error_of_bad cresp hbad
    exact ⟨_, _, run_classify_error chunk cresp sresp now e he, by decide, by simp, rfl, rfl⟩

/-- Witness for C7: a classify response whose `confidence` field is
missing ends the concrete traversal at error_handler with errors recorded,
no record, and `keep = false`. -/
theorem C7_witness :
    ∃ st tr, runEvaluator exChunk exBadClassifyResp exScoreResp "T" = some (st, tr) ∧
      tr.getLast? = some "error_handler" ∧ st.errors ≠ [] ∧ st.keep = false ∧
      st.signal_record = none :=
  (C7_classify_failure_containment exStateNoCls exChunk exBadClassifyResp exScoreResp
    "T").2.2 (Or.inr ⟨_, rfl, Or.inr (Or.inl rfl)⟩)

/-- Claim C8: missing sub-fields of the four-field `score_breakdown`
default to 0 and are not errors (partial breakdowns succeed, yielding a
ScoringResult), whereas a missing `opportunity_score`, `summary` or
`recommended_next_step`, a non-numeric `opportunity_score`, or a failing
external call makes the Score stage append an error without touching
`keep` (the error update carries no `keep` key). -/
theorem C8_score_contract (s : EvaluatorState) (sresp : Except String ScoreResponse) :
    (s.classification ≠ none → scoreRespBad sresp →
      ∃ msg, score_node s sresp = { errors := some (s.errors ++ [msg]) }) ∧
    (∀ r n su ns, s.classification ≠ none → sresp = .ok r →
      r.opportunity_score = .val n → r.summary = some su →
      r.recommended_next_step = some ns → noBadSub r.score_breakdown = true →
      score_node s sresp =
        { scoring := some ⟨n, breakdownDefaults r.score_breakdown, su, ns⟩ }) := by
  constructor
  · intro hcls hbad
    obtain ⟨e, he⟩ := scoreTry_error_of_bad sresp hbad
    cases hc : s.classification with
    | none => exact absurd hc hcls
    | some c => exact ⟨"score_node: " ++ e, by simp [score_node, hc, he]⟩
  · intro r n su ns hcls hr hn hsu hns hsub
    subst hr
    have hok := scoreTry_ok_of_good r n su ns hn hsu hns hsub
    cases hc : s.classification with
    | none => exact absurd hc hcls
    | some c => simp [score_node, hc, hok]

/-- Witness for C8: a score response with no breakdown object at all
parses with all four sub-scores defaulted to 0 and succeeds. -/
theorem C8_witness :
    score_node exStateValidated exOverrideScoreResp =
      { scoring := some exOverrideScoring } :=
  (C8_score_contract exStateValidated exOverrideScoreResp).2 _ 10 "low score but urgent"
    "reach_out_now" (by decide) rfl rfl rfl rfl rfl
